import Mathlib

/-!
Shallow embedding of the device custom-property reconciliation and
multi-attempt write protocol of `src/azure-container-app/update_device_properties.py`.

Python dicts for property-value records are modelled as structures with
`Option` fields (a `none` field models an absent dict key); the loosely
typed JSON values are modelled by the tagged union `Value`.
-/

namespace FleetSync

/-- JSON-ish value carried by a property: Python `None`, `bool`, `int`, `str`. -/
inductive Value where
  | vnull : Value
  | vbool : Bool → Value
  | vint : Int → Value
  | vstr : String → Value
deriving DecidableEq, Repr

/-- The `property` sub-dict of a property-value record:
`{'id': ..., 'propertySet': {'id': ...}}`. `id` is `Option` because an
existing remote record may lack it (`pv.get('property', {}).get('id')`). -/
structure PropRef where
  id : Option String
  setId : Option String
deriving DecidableEq, Repr

/-- A property-value record attached to a device (`customProperties` entry).
Each field is an optional dict key; `idField`/`version` are the opaque
identity fields the code preserves, `data` is the legacy value field. -/
structure PropVal where
  idField : Option Value
  version : Option Value
  property : Option PropRef
  value : Option Value
  data : Option Value
deriving DecidableEq, Repr

/-- The device object as seen by the script: `id`, optional `name`, and the
`customProperties` collection. -/
structure Device where
  id : String
  name : Option String
  customProperties : List PropVal
deriving DecidableEq, Repr

/-- One entry of the resolver's output map:
`{'id': mp['id'], 'setId': mp.get('propertySet', {}).get('id'), 'name': name}`. -/
structure LookupInfo where
  id : String
  setId : Option String
  name : String
deriving DecidableEq, Repr

/-- A property definition from the remote catalog, as accessed by
`build_property_lookup`: `p.get('name')`, `mp['id']`,
`mp.get('propertySet', {}).get('id')`. -/
structure PropDef where
  id : Option String
  name : Option String
  propertySetId : Option String
deriving DecidableEq, Repr

/-- The static `PROP_NAME_MAP` table of the script (in source order). -/
def PROP_NAME_MAP : List (String × String) :=
  [ ("bookable", "Enable Equipment Booking"),
    ("recurring", "Allow Recurring Bookings"),
    ("approvers", "Booking Approvers"),
    ("fleetManagers", "Fleet Managers"),
    ("conflicts", "Allow Double Booking"),
    ("windowDays", "Booking Window (Days)"),
    ("maxDurationHours", "Maximum Booking Duration (Hours)"),
    ("language", "Mailbox Language") ]

/-- The loop body of `build_property_lookup`, recursing over the key map in
source order. `next((p for p in all_props if p.get('name') == name), None)`
is the first catalog entry with the exact name; a found entry missing the
`'id'` key raises (`mp['id']` is a `KeyError`), modelled as `.error`;
a key with no match is silently omitted. -/
def buildAux (defs : List PropDef) : List (String × String) → Except String (List (String × LookupInfo))
  | [] => .ok []
  | (key, name) :: rest =>
    match defs.find? (fun p => p.name == some name) with
    | some mp =>
      match mp.id with
      | some i => (buildAux defs rest).map (fun l => (key, ⟨i, mp.propertySetId, name⟩) :: l)
      | none => .error "KeyError: id"
    | none => buildAux defs rest

/-- `build_property_lookup`: resolve each logical key of `PROP_NAME_MAP`
against the fetched definitions catalog. -/
def buildPropertyLookup (defs : List PropDef) : Except String (List (String × LookupInfo)) :=
  buildAux defs PROP_NAME_MAP

/-- `normalize_existing`: if the legacy `data` key is present and `value` is
absent, move `data` into `value`; any remaining `data` key is dropped. -/
def normalizePV (pv : PropVal) : PropVal :=
  match pv.data, pv.value with
  | some d, none => { pv with value := some d, data := none }
  | some _, some _ => { pv with data := none }
  | none, _ => pv

/-- `to_string` inside `update_properties`: `None` becomes `''`, booleans
become `'true'`/`'false'`, everything else becomes `str(v)` (decimal form
for numbers, identity for strings). -/
def toStringVal : Value → String
  | .vnull => ""
  | .vbool true => "true"
  | .vbool false => "false"
  | .vint n => toString n
  | .vstr s => s

/-- `raw_val = incoming_val if incoming_val != '' else None`: the empty
string canonicalizes to null, everything else passes through. -/
def canon (v : Value) : Value :=
  if v = .vstr "" then .vnull else v

/-- Dict lookup on the resolver output (`key in lookup` / `lookup[key]`);
keys are unique as built, first match returned. -/
def lookupFind (lookup : List (String × LookupInfo)) (k : String) : Option LookupInfo :=
  (lookup.find? (fun p => p.1 == k)).map (fun p => p.2)

/-- `existing_by_prop`: index the normalized existing records by truthy
`property.id` (empty string is falsy and never indexed); a later record
with the same id overwrites an earlier one, as in the Python dict fill. -/
def indexExisting (l : List PropVal) (pid : String) : Option PropVal :=
  l.foldl (fun acc pv =>
    match pv.property with
    | some pr =>
      match pr.id with
      | some q => if q ≠ "" ∧ q = pid then some pv else acc
      | none => acc
    | none => acc) none

/-- The updates that survive the `if key not in lookup: continue` guard,
paired with their resolved info, in iteration order. -/
def resolvedUpdates (props : List (String × Value)) (lookup : List (String × LookupInfo)) :
    List (String × LookupInfo × Value) :=
  props.filterMap (fun kv => (lookupFind lookup kv.1).map (fun info => (kv.1, info, kv.2)))

/-- Build one output record: keep `id`/`version` from the pre-existing
record for this property id when present, always set the `property`
reference and the new `value`; the `data` key is never emitted. -/
def buildEntry (existing : Option PropVal) (info : LookupInfo) (v : Value) : PropVal :=
  match existing with
  | some e =>
    { idField := e.idField, version := e.version,
      property := some ⟨some info.id, info.setId⟩, value := some v, data := none }
  | none =>
    { idField := none, version := none,
      property := some ⟨some info.id, info.setId⟩, value := some v, data := none }

/-- `update_properties`: normalize the existing collection in place, then
for each resolved update build the typed record (canonicalized value kept
at its native type) and the string-coerced record. Returns
`(typed_list, string_list, original_cp)`. -/
def updateProperties (dev : Device) (props : List (String × Value))
    (lookup : List (String × LookupInfo)) :
    List PropVal × List PropVal × List PropVal :=
  let originalCp := dev.customProperties.map normalizePV
  let typed := (resolvedUpdates props lookup).map
    (fun t => buildEntry (indexExisting originalCp t.2.1.id) t.2.1 (canon t.2.2))
  let strs := (resolvedUpdates props lookup).map
    (fun t => buildEntry (indexExisting originalCp t.2.1.id) t.2.1 (.vstr (toStringVal (canon t.2.2))))
  (typed, strs, originalCp)

/-- A write payload handed to `api.set('Device', ...)`: always carries `id`
and `customProperties`; `name` is present only in the full-payload shape
(and only when the device dict itself has a `name` key). -/
structure Payload where
  id : String
  name : Option String
  customProperties : List PropVal
deriving DecidableEq, Repr

/-- Attempt 1 payload: `{'id': device['id'], 'customProperties': string_cp}`. -/
def attempt1 (dev : Device) (stringCp : List PropVal) : Payload :=
  ⟨dev.id, none, stringCp⟩

/-- Attempt 2 payload: `{'id': device['id'], 'customProperties': typed_cp}`. -/
def attempt2 (dev : Device) (typedCp : List PropVal) : Payload :=
  ⟨dev.id, none, typedCp⟩

/-- Attempt 3 payload: the device restricted to `id`/`name` plus
`customProperties: string_cp`. -/
def attempt3 (dev : Device) (stringCp : List PropVal) : Payload :=
  ⟨dev.id, dev.name, stringCp⟩

/-- The write-attempt ladder of `main`: issue attempt 1; on error issue
attempt 2; on error issue attempt 3. `accept` is the remote's opaque
verdict on a payload. Returns the payloads actually issued, in order, and
whether `error is None` at the end. -/
def ladder (dev : Device) (typedCp stringCp : List PropVal) (accept : Payload → Bool) :
    List Payload × Bool :=
  let p1 := attempt1 dev stringCp
  if accept p1 then ([p1], true)
  else
    let p2 := attempt2 dev typedCp
    if accept p2 then ([p1, p2], true)
    else
      let p3 := attempt3 dev stringCp
      ([p1, p2, p3], accept p3)

/-- Behaviour of the post-write verification read (`post_fetch`): the
`api.get` call can raise, return no device, or return the device. -/
inductive PostFetch where
  | raises : PostFetch
  | missing : PostFetch
  | found : Device → PostFetch
deriving DecidableEq, Repr

/-- The final JSON line printed by `main`: `success`, and the `attempts`
key when the normal result line is reached (the exception path prints a
result without an `attempts` key). -/
structure FinalReport where
  success : Bool
  attempts : Option Nat
deriving DecidableEq, Repr

/-- The tail of `main` after the device, properties and lookup are in hand:
run `update_properties`, run the ladder, then `post_fetch`. If the
post-fetch read raises, the outer handler prints `{'success': False, ...}`
(no `attempts` key); otherwise the normal result line reports the ladder
outcome and the constant `'attempts': 3`. -/
def runMain (dev : Device) (props : List (String × Value))
    (lookup : List (String × LookupInfo)) (accept : Payload → Bool)
    (pf : PostFetch) : FinalReport :=
  let r := updateProperties dev props lookup
  let ok := (ladder dev r.1 r.2.1 accept).2
  match pf with
  | .raises => ⟨false, none⟩
  | .missing => ⟨ok, some 3⟩
  | .found _ => ⟨ok, some 3⟩

/-! Concrete fixtures used by counterexamples and witnesses. -/

/-- An existing property-value record for property `P1` holding `"old"`. -/
def pvP1 : PropVal := ⟨none, none, some ⟨some "P1", none⟩, some (.vstr "old"), none⟩

/-- A device `D1` named `Truck 7` carrying only the `P1` record. -/
def devD1 : Device := ⟨"D1", some "Truck 7", [pvP1]⟩

/-- A resolved lookup mapping `bookable` to property `P2` in set `S1`. -/
def lkBk : List (String × LookupInfo) := [("bookable", ⟨"P2", some "S1", "Enable Equipment Booking"⟩)]

/-- An update setting `bookable` to `true`. -/
def upBk : List (String × Value) := [("bookable", .vbool true)]

/-- A resolved lookup mapping `approvers` to property `P3` in set `S1`. -/
def lkAp : List (String × LookupInfo) := [("approvers", ⟨"P3", some "S1", "Booking Approvers"⟩)]

/-- An update setting `approvers` to the plain string `"alice"`. -/
def upAp : List (String × Value) := [("approvers", .vstr "alice")]

/-- A catalog definition that matches `bookable` by name but carries no
property set (`mp.get('propertySet', {}).get('id')` is `None`). -/
def defNoSet : PropDef := ⟨some "p1", some "Enable Equipment Booking", none⟩

/-! Helper lemmas shared between claims. -/

/-- Built output records never carry the legacy `data` key. -/
theorem buildEntry_data (ex : Option PropVal) (info : LookupInfo) (v : Value) :
    (buildEntry ex info v).data = none := by
  cases ex <;> rfl

/-- Built output records carry exactly the value they were given. -/
theorem buildEntry_value (ex : Option PropVal) (info : LookupInfo) (v : Value) :
    (buildEntry ex info v).value = some v := by
  cases ex <;> rfl

/-- Built output records reference exactly the resolved property id and set id. -/
theorem buildEntry_property (ex : Option PropVal) (info : LookupInfo) (v : Value) :
    (buildEntry ex info v).property = some ⟨some info.id, info.setId⟩ := by
  cases ex <;> rfl

/-- Normalization is idempotent. -/
theorem normalizePV_idem (pv : PropVal) : normalizePV (normalizePV pv) = normalizePV pv := by
  obtain ⟨i, ver, pr, val, dat⟩ := pv
  cases dat <;> cases val <;> rfl

/-- Normalizing an already-normalized collection changes nothing. -/
theorem map_normalizePV_idem (l : List PropVal) :
    (l.map normalizePV).map normalizePV = l.map normalizePV := by
  induction l with
  | nil => rfl
  | cons x xs ih => simp only [List.map_cons, normalizePV_idem, ih]

/-! Claim theorems. -/

/-- C5: normalization yields a record with no `data` field; `data` with no
`value` migrates into `value`; with both present `value` wins and `data` is
dropped; a legacy record normalizes identically to the corresponding
`value`-carrying record; and the reconciler normalizes the collection
before any merge while its emitted records never carry `data`. -/
theorem c5_legacy_migration :
    (∀ pv : PropVal, (normalizePV pv).data = none) ∧
    (∀ (pv : PropVal) (d : Value), pv.data = some d → pv.value = none →
      (normalizePV pv).value = some d) ∧
    (∀ (pv : PropVal) (d w : Value), pv.data = some d → pv.value = some w →
      (normalizePV pv).value = some w) ∧
    (∀ (i ver : Option Value) (pr : Option PropRef) (d : Value),
      normalizePV ⟨i, ver, pr, none, some d⟩ = normalizePV ⟨i, ver, pr, some d, none⟩) ∧
    (∀ (dev : Device) (props : List (String × Value)) (lookup : List (String × LookupInfo)),
      (updateProperties dev props lookup).2.2 = dev.customProperties.map normalizePV ∧
      (∀ pv ∈ (updateProperties dev props lookup).1, pv.data = none) ∧
      (∀ pv ∈ (updateProperties dev props lookup).2.1, pv.data = none)) := by
  refine ⟨?_, ?_, ?_, ?_, ?_⟩
  · intro pv
    obtain ⟨i, ver, pr, val, dat⟩ := pv
    cases dat <;> cases val <;> rfl
  · intro pv d hd hv
    obtain ⟨i, ver, pr, val, dat⟩ := pv
    simp only at hd hv
    subst hd; subst hv; rfl
  · intro pv d w hd hv
    obtain ⟨i, ver, pr, val, dat⟩ := pv
    simp only at hd hv
    subst hd; subst hv; rfl
  · intro i ver pr d; rfl
  · intro dev props lookup
    refine ⟨rfl, ?_, ?_⟩ <;> intro pv hpv <;>
      (simp only [updateProperties, List.mem_map] at hpv;
       obtain ⟨t, _, ht⟩ := hpv; subst ht; exact buildEntry_data _ _ _)

/-- C5 witness: a legacy record holding only `data = "x"` normalizes to an
effective value of `"x"`. -/
theorem c5_legacy_migration_witness :
    (normalizePV ⟨none, none, some ⟨some "P1", none⟩, none, some (.vstr "x")⟩).value
      = some (.vstr "x") :=
  c5_legacy_migration.2.1 ⟨none, none, some ⟨some "P1", none⟩, none, some (.vstr "x")⟩
    (.vstr "x") rfl rfl

/-- C6: reconciliation is idempotent — re-running the reconciler against
the collection it normalized in place (the state a second identical run
sees) yields byte-identical typed and string lists and the same
normalized collection. -/
theorem c6_reconcile_idempotent (dev : Device) (props : List (String × Value))
    (lookup : List (String × LookupInfo)) :
    updateProperties { dev with customProperties := (updateProperties dev props lookup).2.2 }
        props lookup
      = updateProperties dev props lookup := by
  obtain ⟨i, nm, cps⟩ := dev
  simp only [updateProperties]
  rw [map_normalizePV_idem]

/-- C10: whenever the normal final result line is reached (the post-fetch
read did not raise), the reported `attempts` field is the constant 3,
regardless of how many write attempts the remote actually accepted. -/
theorem c10_attempts_constant (dev : Device) (props : List (String × Value))
    (lookup : List (String × LookupInfo)) (accept : Payload → Bool) (pf : PostFetch)
    (h : pf ≠ PostFetch.raises) :
    (runMain dev props lookup accept pf).attempts = some 3 := by
  cases pf with
  | raises => exact absurd rfl h
  | missing => rfl
  | found d => rfl

/-- C10 witness: a remote accepting the very first attempt still reports 3. -/
theorem c10_attempts_constant_witness :
    (runMain devD1 upBk lkBk (fun _ => true) PostFetch.missing).attempts = some 3 :=
  c10_attempts_constant devD1 upBk lkBk (fun _ => true) PostFetch.missing (by decide)

/-- C2: at most 3 attempts are issued, in the strict order Minimal-String,
Minimal-Typed, Full-String; attempt N+1 is issued only when attempt N
errored; success is reported iff some issued attempt succeeded; and a
remote that accepts only the Full-String shape (the payload carrying a
`name`) sees exactly 3 attempts in order and the run reports success. -/
theorem c2_ladder_ordering (dev : Device) (typedCp stringCp : List PropVal)
    (accept : Payload → Bool) :
    (ladder dev typedCp stringCp accept).1.length ≤ 3 ∧
    (accept (attempt1 dev stringCp) = true →
      ladder dev typedCp stringCp accept = ([attempt1 dev stringCp], true)) ∧
    (accept (attempt1 dev stringCp) = false → accept (attempt2 dev typedCp) = true →
      ladder dev typedCp stringCp accept
        = ([attempt1 dev stringCp, attempt2 dev typedCp], true)) ∧
    (accept (attempt1 dev stringCp) = false → accept (attempt2 dev typedCp) = false →
      ladder dev typedCp stringCp accept
        = ([attempt1 dev stringCp, attempt2 dev typedCp, attempt3 dev stringCp],
           accept (attempt3 dev stringCp))) ∧
    ((ladder dev typedCp stringCp accept).2 = true ↔
      ∃ p ∈ (ladder dev typedCp stringCp accept).1, accept p = true) ∧
    (dev.name.isSome = true →
      ladder dev typedCp stringCp (fun p => p.name.isSome)
        = ([attempt1 dev stringCp, attempt2 dev typedCp, attempt3 dev stringCp], true)) := by
  refine ⟨?_, ?_, ?_, ?_, ?_, ?_⟩
  · unfold ladder
    dsimp only
    split_ifs <;> simp
  · intro h1; unfold ladder; simp [h1]
  · intro h1 h2; unfold ladder; simp [h1, h2]
  · intro h1 h2; unfold ladder; simp [h1, h2]
  · unfold ladder
    cases h1 : accept (attempt1 dev stringCp) <;>
      cases h2 : accept (attempt2 dev typedCp) <;>
        cases h3 : accept (attempt3 dev stringCp) <;>
          simp [h1, h2, h3]
  · intro hn
    unfold ladder
    simp only [attempt1, attempt2, attempt3, Option.isSome_none, hn]
    simp

/-- C2 witness: against a remote accepting only payloads that carry a
`name`, the concrete device sees exactly the three payloads in order and
the run succeeds; and a remote accepting everything stops after attempt 1. -/
theorem c2_ladder_ordering_witness :
    ladder devD1 [] [] (fun p => p.name.isSome)
        = ([attempt1 devD1 [], attempt2 devD1 [], attempt3 devD1 []], true) ∧
    ladder devD1 [] [] (fun _ => true) = ([attempt1 devD1 []], true) :=
  ⟨(c2_ladder_ordering devD1 [] [] (fun p => p.name.isSome)).2.2.2.2.2 rfl,
   (c2_ladder_ordering devD1 [] [] (fun _ => true)).2.1 rfl⟩

/-- C8: an incoming empty string produces a typed entry with the null value
and a string-coerced entry with the empty string; and the string coercion
maps booleans to `"true"`/`"false"`, integers to their decimal form, and
null to the empty string. -/
theorem c8_empty_string_canonicalization :
    (∀ (dev : Device) (props : List (String × Value)) (lookup : List (String × LookupInfo))
       (i : Nat) (k : String) (info : LookupInfo),
      (resolvedUpdates props lookup)[i]? = some (k, info, .vstr "") →
        (((updateProperties dev props lookup).1)[i]?).map PropVal.value
            = some (some .vnull) ∧
        (((updateProperties dev props lookup).2.1)[i]?).map PropVal.value
            = some (some (.vstr ""))) ∧
    toStringVal (.vbool true) = "true" ∧
    toStringVal (.vbool false) = "false" ∧
    (∀ n : Int, toStringVal (.vint n) = toString n) ∧
    toStringVal .vnull = "" := by
  refine ⟨?_, rfl, rfl, fun n => rfl, rfl⟩
  intro dev props lookup i k info h
  have hc : canon (.vstr "") = .vnull := by simp [canon]
  constructor
  · simp [updateProperties, List.getElem?_map, h, buildEntry_value, hc]
  · simp [updateProperties, List.getElem?_map, h, buildEntry_value, hc, toStringVal]

/-- C8 witness: updating `bookable` with `""` against the concrete device
yields typed value null and string value `""` at position 0. -/
theorem c8_empty_string_canonicalization_witness :
    (((updateProperties devD1 [("bookable", .vstr "")] lkBk).1)[0]?).map PropVal.value
        = some (some .vnull) ∧
    (((updateProperties devD1 [("bookable", .vstr "")] lkBk).2.1)[0]?).map PropVal.value
        = some (some (.vstr "")) :=
  (c8_empty_string_canonicalization.1 devD1 [("bookable", .vstr "")] lkBk 0 "bookable"
    ⟨"P2", some "S1", "Enable Equipment Booking"⟩ (by decide))

/-- C9: an update whose logical key is absent from the resolved lookup
contributes nothing to either output list, does not fail reconciliation,
and leaves the processing of every other update unchanged. -/
theorem c9_unknown_key_skip (dev : Device) (us vs : List (String × Value)) (k : String)
    (v : Value) (lookup : List (String × LookupInfo)) (h : lookupFind lookup k = none) :
    updateProperties dev (us ++ (k, v) :: vs) lookup = updateProperties dev (us ++ vs) lookup := by
  have hr : resolvedUpdates (us ++ (k, v) :: vs) lookup = resolvedUpdates (us ++ vs) lookup := by
    simp only [resolvedUpdates, List.filterMap_append]
    rw [List.filterMap_cons_none]
    simp [h]
  simp only [updateProperties, hr]

/-- C9 witness: an unknown key `zzz` between two resolvable updates is
dropped while its neighbours are processed as if it were absent. -/
theorem c9_unknown_key_skip_witness :
    updateProperties devD1 ([("bookable", .vbool true)] ++ ("zzz", .vint 5) :: upAp) lkBk
      = updateProperties devD1 ([("bookable", .vbool true)] ++ upAp) lkBk :=
  c9_unknown_key_skip devD1 [("bookable", .vbool true)] upAp "zzz" (.vint 5) lkBk (by decide)

/-- C1 counterexample: updating `bookable` (resolved to `P2`) on a device
whose collection holds an entry for `P1` produces applied collections
(both encodings) consisting solely of the new `P2` entry — the untouched
`P1` entry is not carried over into the collection written to the device. -/
theorem c1_preservation_counterexample :
    pvP1 ∈ devD1.customProperties ∧
    (updateProperties devD1 upBk lkBk).2.1
      = [⟨none, none, some ⟨some "P2", some "S1"⟩, some (.vstr "true"), none⟩] ∧
    (updateProperties devD1 upBk lkBk).1
      = [⟨none, none, some ⟨some "P2", some "S1"⟩, some (.vbool true), none⟩] ∧
    pvP1 ∉ (updateProperties devD1 upBk lkBk).2.1 ∧
    pvP1 ∉ (updateProperties devD1 upBk lkBk).1 := by
  refine ⟨by decide, by decide, by decide, by decide, by decide⟩

/-- C1 amended: entries of the existing collection whose `propertyId` is
not among the updated logical keys are omitted from, not carried into, the
collection applied to the device: every record of either applied list is
built from a resolved update, carrying that update's property reference. -/
theorem c1_preservation_amended (dev : Device) (props : List (String × Value))
    (lookup : List (String × LookupInfo)) (pv : PropVal)
    (h : pv ∈ (updateProperties dev props lookup).1 ∨
         pv ∈ (updateProperties dev props lookup).2.1) :
    ∃ k info v, (k, v) ∈ props ∧ lookupFind lookup k = some info ∧
      pv.property = some ⟨some info.id, info.setId⟩ := by
  rcases h with h | h <;>
  · simp only [updateProperties, List.mem_map] at h
    obtain ⟨t, ht, rfl⟩ := h
    simp only [resolvedUpdates, List.mem_filterMap] at ht
    obtain ⟨a, ha, hfa⟩ := ht
    cases hlk : lookupFind lookup a.1 with
    | none => rw [hlk] at hfa; simp at hfa
    | some info =>
      rw [hlk] at hfa
      simp only [Option.map_some'] at hfa
      have ht := Option.some.inj hfa
      subst ht
      exact ⟨a.1, info, a.2, ha, hlk, buildEntry_property _ _ _⟩

/-- C1 amended witness: the single record the concrete update writes is the
resolved `bookable` entry. -/
theorem c1_preservation_amended_witness :
    ∃ k info v, (k, v) ∈ upBk ∧ lookupFind lkBk k = some info ∧
      (PropVal.mk none none (some ⟨some "P2", some "S1"⟩) (some (.vstr "true")) none).property
        = some ⟨some info.id, info.setId⟩ :=
  c1_preservation_amended devD1 upBk lkBk
    ⟨none, none, some ⟨some "P2", some "S1"⟩, some (.vstr "true"), none⟩
    (Or.inr (by decide))

/-- C3 counterexample: with the single string update `approvers = "alice"`,
the Minimal-String and Minimal-Typed payloads are byte-identical, and a
remote rejecting everything receives that identical payload twice (issued
attempts 1 and 2 coincide). -/
theorem c3_distinct_payloads_counterexample :
    attempt1 devD1 (updateProperties devD1 upAp lkAp).2.1
      = attempt2 devD1 (updateProperties devD1 upAp lkAp).1 ∧
    (ladder devD1 (updateProperties devD1 upAp lkAp).1 (updateProperties devD1 upAp lkAp).2.1
        (fun _ => false)).1
      = [attempt1 devD1 (updateProperties devD1 upAp lkAp).2.1,
         attempt1 devD1 (updateProperties devD1 upAp lkAp).2.1,
         attempt3 devD1 (updateProperties devD1 upAp lkAp).2.1] := by
  exact ⟨by decide, by decide⟩

/-- C3 amended: distinct attempts are guaranteed distinct payloads only
conditionally — the Minimal-String and Minimal-Typed payloads differ
whenever some resolved update's canonical value differs from its string
coercion (any boolean, number, null or empty-string update), and the
Full-String payload differs from both minimal payloads whenever the device
record carries a `name`; with only non-empty string updates the first two
payloads coincide. -/
theorem c3_distinct_payloads_amended (dev : Device) (props : List (String × Value))
    (lookup : List (String × LookupInfo)) :
    (∀ (i : Nat) (k : String) (info : LookupInfo) (v : Value),
      (resolvedUpdates props lookup)[i]? = some (k, info, v) →
      canon v ≠ .vstr (toStringVal (canon v)) →
      attempt1 dev (updateProperties dev props lookup).2.1
        ≠ attempt2 dev (updateProperties dev props lookup).1) ∧
    (dev.name.isSome = true →
      attempt3 dev (updateProperties dev props lookup).2.1
          ≠ attempt1 dev (updateProperties dev props lookup).2.1 ∧
      attempt3 dev (updateProperties dev props lookup).2.1
          ≠ attempt2 dev (updateProperties dev props lookup).1) := by
  constructor
  · intro i k info v h hne heq
    have hcp := congrArg Payload.customProperties heq
    have hval := congrArg (fun l => (l[i]?).map PropVal.value) hcp
    simp only [updateProperties, attempt1, attempt2, List.getElem?_map, h,
      Option.map_some', buildEntry_value] at hval
    exact hne (Option.some_injective _ (Option.some_injective _ hval)).symm
  · intro hn
    constructor <;> intro heq <;>
    · have hnm := congrArg Payload.name heq
      simp only [attempt1, attempt2, attempt3] at hnm
      rw [hnm] at hn
      simp at hn

/-- C3 amended witness: with the boolean update `bookable = true` the two
minimal payloads differ, and the full payload differs from the minimal one. -/
theorem c3_distinct_payloads_amended_witness :
    attempt1 devD1 (updateProperties devD1 upBk lkBk).2.1
        ≠ attempt2 devD1 (updateProperties devD1 upBk lkBk).1 ∧
    attempt3 devD1 (updateProperties devD1 upBk lkBk).2.1
        ≠ attempt1 devD1 (updateProperties devD1 upBk lkBk).2.1 :=
  ⟨(c3_distinct_payloads_amended devD1 upBk lkBk).1 0 "bookable"
      ⟨"P2", some "S1", "Enable Equipment Booking"⟩ (.vbool true) (by decide) (by decide),
   ((c3_distinct_payloads_amended devD1 upBk lkBk).2 rfl).1⟩

/-- C4 counterexample: two runs identical except for the post-fetch
collaborator do not always report the same success — when the ladder's
first attempt is accepted, a post-fetch that finds the device reports
success while a post-fetch whose read raises reports failure. -/
theorem c4_postfetch_counterexample :
    (runMain devD1 upBk lkBk (fun _ => true) (PostFetch.found devD1)).success = true ∧
    (runMain devD1 upBk lkBk (fun _ => true) PostFetch.raises).success = false := by
  exact ⟨by decide, by decide⟩

/-- C4 amended: the post-fetch verification is observational only among
non-raising outcomes (device present or missing leave the reported success
unchanged), but a post-fetch read that raises aborts the run into the
exception path, which reports failure regardless of the ladder outcome. -/
theorem c4_postfetch_amended (dev : Device) (props : List (String × Value))
    (lookup : List (String × LookupInfo)) (accept : Payload → Bool) :
    (∀ pf₁ pf₂ : PostFetch, pf₁ ≠ PostFetch.raises → pf₂ ≠ PostFetch.raises →
      (runMain dev props lookup accept pf₁).success
        = (runMain dev props lookup accept pf₂).success) ∧
    (runMain dev props lookup accept PostFetch.raises).success = false := by
  constructor
  · intro pf₁ pf₂ h1 h2
    cases pf₁ with
    | raises => exact absurd rfl h1
    | missing => cases pf₂ with
      | raises => exact absurd rfl h2
      | missing => rfl
      | found d => rfl
    | found d => cases pf₂ with
      | raises => exact absurd rfl h2
      | missing => rfl
      | found d2 => rfl
  · rfl

/-- C4 amended witness: missing-device and found-device post-fetch runs
report the same success on the concrete inputs. -/
theorem c4_postfetch_amended_witness :
    (runMain devD1 upBk lkBk (fun _ => true) PostFetch.missing).success
      = (runMain devD1 upBk lkBk (fun _ => true) (PostFetch.found devD1)).success :=
  (c4_postfetch_amended devD1 upBk lkBk (fun _ => true)).1 PostFetch.missing
    (PostFetch.found devD1) (by decide) (by decide)

/-- Every entry the resolver loop emits comes from the first catalog
definition whose name matches that key's configured target name. -/
theorem buildAux_sound (defs : List PropDef) :
    ∀ (pairs : List (String × String)) (l : List (String × LookupInfo)) (k : String)
      (info : LookupInfo),
      buildAux defs pairs = .ok l → (k, info) ∈ l →
      ∃ name mp, (k, name) ∈ pairs ∧
        defs.find? (fun p => p.name == some name) = some mp ∧
        mp.id = some info.id ∧ info.setId = mp.propertySetId ∧ info.name = name := by
  intro pairs
  induction pairs with
  | nil =>
    intro l k info h hm
    simp only [buildAux, Except.ok.injEq] at h
    subst h
    simp at hm
  | cons pr rest ih =>
    obtain ⟨key, name⟩ := pr
    intro l k info h hm
    simp only [buildAux] at h
    cases hfind : defs.find? (fun p => p.name == some name) with
    | none =>
      rw [hfind] at h
      obtain ⟨nm, mp, hmem, hrest⟩ := ih l k info h hm
      exact ⟨nm, mp, List.mem_cons_of_mem _ hmem, hrest⟩
    | some mp =>
      rw [hfind] at h
      dsimp only at h
      cases hid : mp.id with
      | none => rw [hid] at h; exact Except.noConfusion h
      | some i =>
        rw [hid] at h
        dsimp only at h
        cases hrest : buildAux defs rest with
        | error e => rw [hrest] at h; simp [Except.map] at h
        | ok l2 =>
          rw [hrest] at h
          simp only [Except.map, Except.ok.injEq] at h
          subst h
          rcases List.mem_cons.mp hm with hm | hm
          · injection hm with h1 h2
            subst h1
            subst h2
            exact ⟨name, mp, List.mem_cons_self _ _, hfind, hid, rfl, rfl⟩
          · obtain ⟨nm, mp2, hmem, hrest2⟩ := ih l2 k info hrest hm
            exact ⟨nm, mp2, List.mem_cons_of_mem _ hmem, hrest2⟩

/-- The resolver loop cannot fail when every catalog definition carries an
`id`: keys with no name match are simply omitted. -/
theorem buildAux_ok (defs : List PropDef) (hd : ∀ mp ∈ defs, mp.id ≠ none) :
    ∀ pairs : List (String × String), ∃ l, buildAux defs pairs = .ok l := by
  intro pairs
  induction pairs with
  | nil => exact ⟨[], rfl⟩
  | cons pr rest ih =>
    obtain ⟨key, name⟩ := pr
    obtain ⟨l2, hl2⟩ := ih
    simp only [buildAux]
    cases hfind : defs.find? (fun p => p.name == some name) with
    | none => exact ⟨l2, hl2⟩
    | some mp =>
      have hmem : mp ∈ defs := List.mem_of_find?_eq_some hfind
      cases hid : mp.id with
      | none => exact absurd hid (hd mp hmem)
      | some i =>
        refine ⟨(key, ⟨i, mp.propertySetId, name⟩) :: l2, ?_⟩
        dsimp only
        rw [hid, hl2]
        rfl

/-- C7 amended: every entry of the resolver's output was produced from the
first catalog definition whose name exactly equals the configured target
name, with the entry's `id` taken from that definition; its
`propertySetId` equals that definition's property-set id when present and
is null otherwise (it is not guaranteed present); keys with no exact-name
match are omitted without failing the operation. -/
theorem c7_resolver_amended :
    (∀ (defs : List PropDef) (l : List (String × LookupInfo)) (k : String) (info : LookupInfo),
      buildPropertyLookup defs = .ok l → (k, info) ∈ l →
      ∃ name mp, (k, name) ∈ PROP_NAME_MAP ∧
        defs.find? (fun p => p.name == some name) = some mp ∧
        mp.id = some info.id ∧ info.setId = mp.propertySetId ∧ info.name = name) ∧
    (∀ defs : List PropDef, (∀ mp ∈ defs, mp.id ≠ none) →
      ∃ l, buildPropertyLookup defs = .ok l) := by
  constructor
  · intro defs l k info h hm
    exact buildAux_sound defs PROP_NAME_MAP l k info h hm
  · intro defs hd
    exact buildAux_ok defs hd PROP_NAME_MAP

/-- C7 counterexample: a catalog whose only definition matches `bookable`
by name but has no property set resolves successfully, yet the resulting
entry's `propertySetId` is missing (`none`) — it is not present in the
source catalog as the claim requires. -/
theorem c7_resolver_counterexample :
    buildPropertyLookup [defNoSet]
        = .ok [("bookable", ⟨"p1", none, "Enable Equipment Booking"⟩)] ∧
    (LookupInfo.mk "p1" none "Enable Equipment Booking").setId = none := by
  exact ⟨rfl, rfl⟩

/-- C7 amended witness: the concrete no-set catalog's single output entry
is traced back to its first (only) matching definition. -/
theorem c7_resolver_amended_witness :
    ∃ name mp, ("bookable", name) ∈ PROP_NAME_MAP ∧
      [defNoSet].find? (fun p => p.name == some name) = some mp ∧
      mp.id = some (LookupInfo.mk "p1" none "Enable Equipment Booking").id ∧
      (LookupInfo.mk "p1" none "Enable Equipment Booking").setId = mp.propertySetId ∧
      (LookupInfo.mk "p1" none "Enable Equipment Booking").name = name :=
  c7_resolver_amended.1 [defNoSet] [("bookable", ⟨"p1", none, "Enable Equipment Booking"⟩)]
    "bookable" ⟨"p1", none, "Enable Equipment Booking"⟩ rfl (by decide)

end FleetSync
